import Mathlib

/-!
# ls-metrics: the sampling loop of `main.go`

A shallow embedding of `src/main.go` (package `main`): the JSON snapshot types,
`GetEvents`, and the body of the `for` loop of `main`.

Modelling choices
* `float64` is modelled twice.  `loopBody` computes in `ℚ` (exact arithmetic),
  for the claims stated in exact arithmetic or independent of arithmetic.
  `IEEE.loopBody` is the same loop over `F64`, IEEE 754 binary64 with NaN,
  infinities, signed zeros and round-to-nearest-even, for the claims whose truth
  depends on the behaviour of `float64`.
* The statsd client is modelled by the list of `c.Gauge` calls it receives, in
  call order.  The client adds the namespace prefix itself, so a gauge carries
  the bare name handed to `c.Gauge`.
* The ticker is modelled by one boolean per cycle: whether a tick is already
  pending when the non-blocking `select` runs.
* The outside world of `GetEvents` (HTTP GET, body read, JSON decode) is
  modelled by the explicit outcomes of the three calls.
-/

namespace LsMetrics

/-! ## Data model (`main.go` lines 18-48) -/

/-- The Go `error` values; `none : Option Error` is the `nil` error. -/
abbrev Error := String

/-- Go `type Events struct`. -/
structure Events where
  Out : ℚ
  In : ℚ
  deriving DecidableEq

/-- Go `type Capacity struct`. -/
structure Capacity where
  Maxqsizeb : ℚ
  Qsizeb : ℚ
  deriving DecidableEq

/-- Go `type Queue struct` (embeds `Capacity`). -/
structure Queue where
  Capacity : Capacity
  deriving DecidableEq

/-- Go `type Pipeline struct` (embeds `Events` and `Queue`). -/
structure Pipeline where
  Events : Events
  Queue : Queue
  deriving DecidableEq

/-- Go `type EventsOut struct` (embeds `Pipeline`). -/
structure EventsOut where
  Pipeline : Pipeline
  deriving DecidableEq

/-- The Go zero value of `EventsOut`, the contents of `var e EventsOut`. -/
def EventsOut.zero : EventsOut := ⟨⟨⟨0, 0⟩, ⟨⟨0, 0⟩⟩⟩⟩

/-- Build a snapshot from its four numbers: `out`, `in`, `queue_size_in_bytes`,
`max_queue_size_in_bytes`. -/
def EventsOut.mk4 (out inn qsize maxqsize : ℚ) : EventsOut :=
  ⟨⟨⟨out, inn⟩, ⟨⟨maxqsize, qsize⟩⟩⟩⟩

/-! ## `GetEvents` (`main.go` lines 50-69) -/

/-- The outcomes of the three external calls made by `GetEvents`. -/
structure FetchOutcome where
  /-- the `err` returned by `http.Get(s)` -/
  getErr : Option Error
  /-- the `err` returned by `ioutil.ReadAll(resp.Body)` -/
  readErr : Option Error
  /-- the contents of `e` after `json.Unmarshal(body, &e)`, given `e` before -/
  unmarshalled : EventsOut → EventsOut
  /-- the error returned by `json.Unmarshal(body, &e)` -/
  unmarshalErr : Option Error

/-- Go `func GetEvents(URL url.URL) (*EventsOut, error)`.  The result is
`.error err` for `return nil, err` and `.ok e` for `return &e, nil`. -/
def GetEvents (w : FetchOutcome) : Except Error EventsOut :=
  let e := EventsOut.zero
  -- resp, err := http.Get(s)
  let err := w.getErr
  match err with
  | some x => .error x
  | none =>
    -- body, err := ioutil.ReadAll(resp.Body)
    let err := w.readErr
    match err with
    | some x => .error x
    | none =>
      -- json.Unmarshal(body, &e): the returned error is not assigned to `err`
      let e := w.unmarshalled e
      match err with
      | some x => .error x
      | none => .ok e

/-! ## The loop of `main` (`main.go` lines 93-154) -/

/-- A call `c.Gauge(name, value, tags, rate)` on the statsd client. -/
structure Gauge where
  name : String
  value : ℚ
  tags : List String
  rate : ℚ
  deriving DecidableEq

/-- The variables of `main` that live across iterations of the loop:
`lastCountOut` and `lastCountIn`.  (`currCountOut`, `currCountIn`, `currQSizeB`
and `currMaxQSizeB` are also declared outside the loop, but every iteration
assigns them before it reads them.) -/
structure LoopState where
  lastCountOut : ℚ
  lastCountIn : ℚ
  deriving DecidableEq

/-- The state on entry to the loop: `var lastCountOut, lastCountIn float64`. -/
def LoopState.init : LoopState := ⟨0, 0⟩

/-- One iteration of the `for` loop of `main`.  `interval` is
`interval.Seconds()`, `fetched` the result of `GetEvents(**lsURL)`, and
`tickPending` tells whether `case _ = <-ticker` of the `select` is ready.
Returns the new state and the `c.Gauge` calls of this iteration, in order. -/
def loopBody (interval : ℚ) (tags : List String) (st : LoopState)
    (fetched : Except Error EventsOut) (tickPending : Bool) : LoopState × List Gauge :=
  let dtIn := interval
  let dtOut := interval
  match fetched with
  | .error _ => (st, [])          -- log, <-ticker, continue
  | .ok currVals =>
    let currCountOut := currVals.Pipeline.Events.Out
    let currCountIn := currVals.Pipeline.Events.In
    let currQSizeB := currVals.Pipeline.Queue.Capacity.Qsizeb
    let currMaxQSizeB := currVals.Pipeline.Queue.Capacity.Maxqsizeb
    if tickPending then
      (st, [])                    -- "discarding value"
    else
      let (lastCountOut, emitOut) :=
        if st.lastCountOut = 0 then
          (currCountOut, [])
        else
          let dyOut := currCountOut - st.lastCountOut
          let rateOut := dyOut / dtOut
          let rateOut := if rateOut < 0 then 0 else rateOut
          (currCountOut, [Gauge.mk "rateout" rateOut tags 1])
      let (lastCountIn, emitIn) :=
        if st.lastCountIn = 0 then
          (currCountIn, [])
        else
          let dyIn := currCountIn - st.lastCountIn
          let rateIn := dyIn / dtIn
          let rateIn := if rateIn < 0 then 0 else rateIn
          (currCountIn, [Gauge.mk "ratein" rateIn tags 1])
      (⟨lastCountOut, lastCountIn⟩,
        emitOut ++ emitIn ++
          [Gauge.mk "queue_size_in_bytes" currQSizeB tags 1,
           Gauge.mk "max_queue_size_in_bytes" currMaxQSizeB tags 1])

/-- The input of one cycle: the result of `GetEvents` and whether a tick is
already pending at the `select`. -/
abbrev Cycle := Except Error EventsOut × Bool

/-- A cycle whose fetch failed. -/
def Cycle.fetchError (err : Error) : Cycle := (.error err, false)

/-- A cycle whose fetch succeeded but whose tick had already fired. -/
def Cycle.staleTick (snap : EventsOut) : Cycle := (.ok snap, true)

/-- A successful, non-discarded cycle. -/
def Cycle.sample (snap : EventsOut) : Cycle := (.ok snap, false)

/-- Run the loop over a finite sequence of cycles.  Returns the final state and,
for each cycle, the gauges it emitted. -/
def run (interval : ℚ) (tags : List String) :
    LoopState → List Cycle → LoopState × List (List Gauge)
  | st, [] => (st, [])
  | st, c :: cs =>
    let r := loopBody interval tags st c.1 c.2
    let rest := run interval tags r.1 cs
    (rest.1, r.2 :: rest.2)

/-- The names of the gauges of a batch, in emission order. -/
def names (gs : List Gauge) : List String := gs.map Gauge.name

/-- The values emitted under the gauge name `n`, in emission order. -/
def valuesOf (n : String) (gs : List Gauge) : List ℚ :=
  (gs.filter (fun g => g.name == n)).map Gauge.value

/-- The gauges emitted by cycle number `i` (counted from 0) of a run. -/
def batchAt (r : LoopState × List (List Gauge)) (i : ℕ) : List Gauge := r.2.getD i []

/-- The four gauge names, in the order of the `c.Gauge` calls in the source. -/
def gaugeOrder : List String :=
  ["rateout", "ratein", "queue_size_in_bytes", "max_queue_size_in_bytes"]

/-! ## IEEE 754 binary64, the `float64` of Go

The exact model above computes in `ℚ`.  The model below repeats the loop over
binary64 values, with NaN, the infinities, signed zeros, subnormals and
round-to-nearest-even, for the claims whose truth depends on them. -/

/-- A `float64`: NaN, a signed infinity, or the finite value
`(-1) ^ neg * m * 2 ^ e`.  Canonical finite values have `e = -1074` and
`m < 2 ^ 52` (zeros and subnormals) or `-1074 ≤ e ≤ 971` and
`2 ^ 52 ≤ m < 2 ^ 53` (normal numbers), as in the bit pattern. -/
inductive F64 where
  | nan
  | inf (neg : Bool)
  | fin (neg : Bool) (m : ℕ) (e : ℤ)
  deriving DecidableEq

/-- The constant `0`, positive zero. -/
def F64.zero : F64 := .fin false 0 (-1074)

/-- Helper of `F64.ilog2`, by recursion on `fuel`. -/
def F64.ilog2Aux : ℕ → ℕ → ℕ
  | 0, _ => 0
  | fuel + 1, n => if n < 2 then 0 else F64.ilog2Aux fuel (n / 2) + 1

/-- Floor of the binary logarithm of `n` (0 at `n = 0`). -/
def F64.ilog2 (n : ℕ) : ℕ := F64.ilog2Aux n n

/-- Round the rational `(-1) ^ neg * n / d` (with `0 < d`) to the nearest
binary64 value, ties to even: 53 significant bits, least exponent `-1074`,
overflow to infinity, underflow to a signed zero. -/
def F64.round (neg : Bool) (n d : ℕ) : F64 :=
  if n = 0 then .fin neg 0 (-1074) else
  -- e = floor (log2 (n / d))
  let e0 : ℤ := (F64.ilog2 n : ℤ) - (F64.ilog2 d : ℤ)
  let ge : Bool :=
    if 0 ≤ e0 then decide (d <<< e0.toNat ≤ n) else decide (d ≤ n <<< (-e0).toNat)
  let e : ℤ := if ge then e0 else e0 - 1
  -- exponent of the unit in the last place
  let ex : ℤ := max (e - 52) (-1074)
  -- n / d = (N / D) * 2 ^ ex
  let N : ℕ := if 0 ≤ ex then n else n <<< (-ex).toNat
  let D : ℕ := if 0 ≤ ex then d <<< ex.toNat else d
  let q := N / D
  let r := N % D
  let m := if D < 2 * r ∨ (2 * r = D ∧ q % 2 = 1) then q + 1 else q
  let m1 := if m = 2 ^ 53 then 2 ^ 52 else m
  let ex1 := if m = 2 ^ 53 then ex + 1 else ex
  if 971 < ex1 then .inf neg else .fin neg m1 ex1

/-- Conversion of an integer, as for the constants of the examples. -/
def F64.ofInt (z : ℤ) : F64 := F64.round (decide (z < 0)) z.natAbs 1

/-- The Go operator `-` on `float64`. -/
def F64.sub : F64 → F64 → F64
  | .nan, _ => .nan
  | _, .nan => .nan
  | .inf s, .inf t => if s = t then .nan else .inf s
  | .inf s, .fin _ _ _ => .inf s
  | .fin _ _ _, .inf t => .inf (!t)
  | .fin s1 m1 e1, .fin s2 m2 e2 =>
    let e := min e1 e2
    let a : ℤ := (if s1 then -1 else 1) * ((m1 <<< (e1 - e).toNat : ℕ) : ℤ)
    let b : ℤ := (if s2 then -1 else 1) * ((m2 <<< (e2 - e).toNat : ℕ) : ℤ)
    let d := a - b
    -- an exact zero difference is +0, except (-0) - (+0) = -0
    if d = 0 then .fin (s1 && !s2) 0 (-1074)
    else if 0 ≤ e then F64.round (decide (d < 0)) (d.natAbs <<< e.toNat) 1
    else F64.round (decide (d < 0)) d.natAbs (1 <<< (-e).toNat)

/-- The Go operator `/` on `float64`. -/
def F64.div : F64 → F64 → F64
  | .nan, _ => .nan
  | _, .nan => .nan
  | .inf _, .inf _ => .nan
  | .inf s, .fin t _ _ => .inf (xor s t)
  | .fin s _ _, .inf t => .fin (xor s t) 0 (-1074)
  | .fin s1 m1 e1, .fin s2 m2 e2 =>
    if m2 = 0 then (if m1 = 0 then .nan else .inf (xor s1 s2))
    else if m1 = 0 then .fin (xor s1 s2) 0 (-1074)
    else if 0 ≤ e1 - e2 then F64.round (xor s1 s2) (m1 <<< (e1 - e2).toNat) m2
    else F64.round (xor s1 s2) m1 (m2 <<< (e2 - e1).toNat)

/-- The place of a value on the extended real line, in units of `2 ^ (-1074)`;
`none` for NaN.  Both zeros have the key 0. -/
def F64.key : F64 → Option ℤ
  | .nan => none
  | .inf neg => some ((if neg then -1 else 1) * ((1 <<< 2100 : ℕ) : ℤ))
  | .fin neg m e => some ((if neg then -1 else 1) * ((m <<< (e + 1074).toNat : ℕ) : ℤ))

/-- The Go operator `<` on `float64`: false when an operand is NaN. -/
def F64.lt (a b : F64) : Bool :=
  match a.key, b.key with
  | some x, some y => decide (x < y)
  | _, _ => false

/-- The Go operator `<=` on `float64`: false when an operand is NaN. -/
def F64.le (a b : F64) : Bool :=
  match a.key, b.key with
  | some x, some y => decide (x ≤ y)
  | _, _ => false

/-- The Go operator `==` on `float64`: false when an operand is NaN, true
between the two zeros. -/
def F64.eq (a b : F64) : Bool :=
  match a.key, b.key with
  | some x, some y => decide (x = y)
  | _, _ => false

/-- Neither NaN nor an infinity. -/
def F64.isFinite : F64 → Bool
  | .fin _ _ _ => true
  | _ => false

/-- Finite and greater than 0: what `interval.Seconds()` is for a positive
interval. -/
def F64.isPosFinite : F64 → Bool
  | .fin false m _ => decide (m ≠ 0)
  | _ => false

namespace IEEE

/-- Go `type Events struct`, with `float64` fields. -/
structure Events where
  Out : F64
  In : F64
  deriving DecidableEq

/-- Go `type Capacity struct`, with `float64` fields. -/
structure Capacity where
  Maxqsizeb : F64
  Qsizeb : F64
  deriving DecidableEq

/-- Go `type Queue struct` (embeds `Capacity`). -/
structure Queue where
  Capacity : Capacity
  deriving DecidableEq

/-- Go `type Pipeline struct` (embeds `Events` and `Queue`). -/
structure Pipeline where
  Events : Events
  Queue : Queue
  deriving DecidableEq

/-- Go `type EventsOut struct` (embeds `Pipeline`). -/
structure EventsOut where
  Pipeline : Pipeline
  deriving DecidableEq

/-- Build a snapshot from its four numbers: `out`, `in`, `queue_size_in_bytes`,
`max_queue_size_in_bytes`. -/
def EventsOut.mk4 (out inn qsize maxqsize : F64) : EventsOut :=
  ⟨⟨⟨out, inn⟩, ⟨⟨maxqsize, qsize⟩⟩⟩⟩

/-- A call `c.Gauge(name, value, tags, rate)` on the statsd client. -/
structure Gauge where
  name : String
  value : F64
  tags : List String
  rate : F64
  deriving DecidableEq

/-- The sample rate `1` passed to every `c.Gauge` call. -/
def one : F64 := .fin false (2 ^ 52) (-52)

/-- The variables `lastCountOut` and `lastCountIn` of `main`. -/
structure LoopState where
  lastCountOut : F64
  lastCountIn : F64
  deriving DecidableEq

/-- The state on entry to the loop: `var lastCountOut, lastCountIn float64`. -/
def LoopState.init : LoopState := ⟨F64.zero, F64.zero⟩

/-- One iteration of the `for` loop of `main` over `float64`, statement for
statement as `LsMetrics.loopBody`, with the Go operators `==`, `-`, `/` and `<`
of `float64`. -/
def loopBody (interval : F64) (tags : List String) (st : LoopState)
    (fetched : Except Error EventsOut) (tickPending : Bool) : LoopState × List Gauge :=
  let dtIn := interval
  let dtOut := interval
  match fetched with
  | .error _ => (st, [])          -- log, <-ticker, continue
  | .ok currVals =>
    let currCountOut := currVals.Pipeline.Events.Out
    let currCountIn := currVals.Pipeline.Events.In
    let currQSizeB := currVals.Pipeline.Queue.Capacity.Qsizeb
    let currMaxQSizeB := currVals.Pipeline.Queue.Capacity.Maxqsizeb
    if tickPending then
      (st, [])                    -- "discarding value"
    else
      let (lastCountOut, emitOut) :=
        if F64.eq st.lastCountOut F64.zero then
          (currCountOut, [])
        else
          let dyOut := F64.sub currCountOut st.lastCountOut
          let rateOut := F64.div dyOut dtOut
          let rateOut := if F64.lt rateOut F64.zero then F64.zero else rateOut
          (currCountOut, [Gauge.mk "rateout" rateOut tags one])
      let (lastCountIn, emitIn) :=
        if F64.eq st.lastCountIn F64.zero then
          (currCountIn, [])
        else
          let dyIn := F64.sub currCountIn st.lastCountIn
          let rateIn := F64.div dyIn dtIn
          let rateIn := if F64.lt rateIn F64.zero then F64.zero else rateIn
          (currCountIn, [Gauge.mk "ratein" rateIn tags one])
      (⟨lastCountOut, lastCountIn⟩,
        emitOut ++ emitIn ++
          [Gauge.mk "queue_size_in_bytes" currQSizeB tags one,
           Gauge.mk "max_queue_size_in_bytes" currMaxQSizeB tags one])

/-- The input of one cycle: the result of `GetEvents` and whether a tick is
already pending at the `select`. -/
abbrev Cycle := Except Error EventsOut × Bool

/-- A cycle whose fetch failed. -/
def Cycle.fetchError (err : Error) : Cycle := (.error err, false)

/-- A cycle whose fetch succeeded but whose tick had already fired. -/
def Cycle.staleTick (snap : EventsOut) : Cycle := (.ok snap, true)

/-- A successful, non-discarded cycle. -/
def Cycle.sample (snap : EventsOut) : Cycle := (.ok snap, false)

/-- True unless the cycle is a successful, non-discarded one whose `out` or `in`
counter is NaN or infinite. -/
def Cycle.finiteCounters : Cycle → Bool
  | (.ok snap, false) =>
    snap.Pipeline.Events.Out.isFinite && snap.Pipeline.Events.In.isFinite
  | _ => true

/-- Run the loop over a finite sequence of cycles.  Returns the final state and,
for each cycle, the gauges it emitted. -/
def run (interval : F64) (tags : List String) :
    LoopState → List Cycle → LoopState × List (List Gauge)
  | st, [] => (st, [])
  | st, c :: cs =>
    let r := loopBody interval tags st c.1 c.2
    let rest := run interval tags r.1 cs
    (rest.1, r.2 :: rest.2)

/-- The names of the gauges of a batch, in emission order. -/
def names (gs : List Gauge) : List String := gs.map Gauge.name

/-- The values emitted under the gauge name `n`, in emission order. -/
def valuesOf (n : String) (gs : List Gauge) : List F64 :=
  (gs.filter (fun g => g.name == n)).map Gauge.value

/-- The gauges emitted by cycle number `i` (counted from 0) of a run. -/
def batchAt (r : LoopState × List (List Gauge)) (i : ℕ) : List Gauge := r.2.getD i []

end IEEE

/-! ## Basic facts about one iteration -/

theorem clamp_eq_max (x : ℚ) : (if x < 0 then 0 else x) = max 0 x := by
  by_cases h : x < 0
  · rw [if_pos h, max_eq_left h.le]
  · rw [if_neg h, max_eq_right (not_lt.mp h)]

theorem loopBody_error (dt : ℚ) (tags : List String) (st : LoopState) (err : Error)
    (pending : Bool) : loopBody dt tags st (.error err) pending = (st, []) := rfl

theorem loopBody_stale (dt : ℚ) (tags : List String) (st : LoopState) (snap : EventsOut) :
    loopBody dt tags st (.ok snap) true = (st, []) := rfl

/-- Closed form of a successful, non-discarded iteration. -/
theorem loopBody_sample (dt : ℚ) (tags : List String) (st : LoopState) (snap : EventsOut) :
    loopBody dt tags st (.ok snap) false =
      (⟨snap.Pipeline.Events.Out, snap.Pipeline.Events.In⟩,
        (if st.lastCountOut = 0 then []
          else [Gauge.mk "rateout" (max 0 ((snap.Pipeline.Events.Out - st.lastCountOut) / dt))
                  tags 1]) ++
        (if st.lastCountIn = 0 then []
          else [Gauge.mk "ratein" (max 0 ((snap.Pipeline.Events.In - st.lastCountIn) / dt))
                  tags 1]) ++
        [Gauge.mk "queue_size_in_bytes" snap.Pipeline.Queue.Capacity.Qsizeb tags 1,
         Gauge.mk "max_queue_size_in_bytes" snap.Pipeline.Queue.Capacity.Maxqsizeb tags 1]) := by
  unfold loopBody
  by_cases ho : st.lastCountOut = 0 <;> by_cases hi : st.lastCountIn = 0 <;>
    simp [ho, hi, clamp_eq_max]

/-- When the GET and the body read succeed, `GetEvents` returns the decoded
value whatever `json.Unmarshal` reported. -/
theorem GetEvents_read_ok (f : EventsOut → EventsOut) (uerr : Option Error) :
    GetEvents ⟨none, none, f, uerr⟩ = .ok (f EventsOut.zero) := rfl

theorem run_nil (dt : ℚ) (tags : List String) (st : LoopState) :
    run dt tags st [] = (st, []) := rfl

theorem run_cons (dt : ℚ) (tags : List String) (st : LoopState) (c : Cycle) (cs : List Cycle) :
    run dt tags st (c :: cs) =
      ((run dt tags (loopBody dt tags st c.1 c.2).1 cs).1,
        (loopBody dt tags st c.1 c.2).2 :: (run dt tags (loopBody dt tags st c.1 c.2).1 cs).2) :=
  rfl

/-- In a run of successful, non-discarded cycles, the iteration of cycle `i + 1`
starts from the baselines of snapshot `i`, whatever the state the run began in. -/
theorem run_sample_succ (dt : ℚ) (tags : List String) (snaps : List EventsOut) :
    ∀ (st : LoopState) (i : ℕ) (a b : EventsOut),
      snaps[i]? = some a → snaps[i + 1]? = some b →
      (run dt tags st (snaps.map Cycle.sample)).2[i + 1]? =
        some (loopBody dt tags ⟨a.Pipeline.Events.Out, a.Pipeline.Events.In⟩ (.ok b) false).2 := by
  induction snaps with
  | nil => intro st i a b ha; simp at ha
  | cons s rest ih =>
    intro st i a b ha hb
    rw [List.map_cons, run_cons]
    cases i with
    | zero =>
      simp only [List.getElem?_cons_zero, Option.some.injEq] at ha
      subst ha
      cases rest with
      | nil => simp at hb
      | cons s2 rest2 =>
        simp only [zero_add, List.getElem?_cons_succ, List.getElem?_cons_zero,
          Option.some.injEq] at hb
        subst hb
        simp [run_cons, Cycle.sample, loopBody_sample]
    | succ j =>
      simp only [List.getElem?_cons_succ] at ha hb ⊢
      exact ih _ j a b ha hb

/-! ## Facts about `float64` arithmetic and the `float64` loop -/

theorem F64.pack_ne_nan (c : Prop) [Decidable c] (neg : Bool) (m : ℕ) (ex : ℤ) :
    (if c then F64.inf neg else F64.fin neg m ex) ≠ .nan := by
  split <;> simp

/-- Rounding never produces NaN. -/
theorem F64.round_ne_nan (neg : Bool) (n d : ℕ) : F64.round neg n d ≠ .nan := by
  unfold F64.round
  split
  · simp
  · exact F64.pack_ne_nan _ _ _ _

theorem F64.sub_fin_ne_nan (s1 : Bool) (m1 : ℕ) (e1 : ℤ) (s2 : Bool) (m2 : ℕ) (e2 : ℤ) :
    F64.sub (.fin s1 m1 e1) (.fin s2 m2 e2) ≠ .nan := by
  simp only [F64.sub]
  split_ifs <;> first | exact F64.round_ne_nan _ _ _ | simp

/-- The difference of two finite values is never NaN. -/
theorem F64.sub_ne_nan_of_finite (a b : F64) (ha : a.isFinite = true) (hb : b.isFinite = true) :
    F64.sub a b ≠ .nan := by
  cases a <;> cases b <;> simp [F64.isFinite] at ha hb
  exact F64.sub_fin_ne_nan _ _ _ _ _ _

/-- A value other than NaN divided by a positive finite value is not NaN. -/
theorem F64.div_ne_nan (a dt : F64) (ha : a ≠ .nan) (hdt : dt.isPosFinite = true) :
    F64.div a dt ≠ .nan := by
  cases dt with
  | nan => simp [F64.isPosFinite] at hdt
  | inf t => simp [F64.isPosFinite] at hdt
  | fin t m e =>
    cases t with
    | true => simp [F64.isPosFinite] at hdt
    | false =>
      have hm : m ≠ 0 := by simpa [F64.isPosFinite] using hdt
      cases a with
      | nan => exact absurd rfl ha
      | inf s => simp [F64.div]
      | fin s m1 e1 =>
        simp only [F64.div, hm, if_false]
        split_ifs <;> first | exact F64.round_ne_nan _ _ _ | simp

/-- Rounding at work: `(9 - 5) / 10` is the binary64 value nearest to `2 / 5`,
`7205759403792794 * 2 ^ (-54)`. -/
theorem F64.div_rounds_example :
    F64.div (F64.sub (F64.ofInt 9) (F64.ofInt 5)) (F64.ofInt 10) =
      .fin false 7205759403792794 (-54) := by
  decide

set_option maxRecDepth 8000 in
/-- Overflow at work: `1e308 - (-1e308)` is `+Inf`. -/
theorem F64.sub_overflows_example :
    F64.sub (.fin false 5010420900022432 971) (.fin true 5010420900022432 971) =
      .inf false := by
  decide

theorem F64.key_zero : F64.zero.key = some 0 := by
  simp [F64.key, F64.zero]

theorem F64.lt_zero_zero : F64.lt F64.zero F64.zero = false := by
  simp [F64.lt, F64.key_zero]

/-- A value that is not NaN and not `< 0` is `>= 0`. -/
theorem F64.zero_le_of_not_lt (a : F64) (ha : a ≠ .nan) (h : F64.lt a F64.zero = false) :
    F64.le F64.zero a = true := by
  cases hk : a.key with
  | none => cases a <;> simp [F64.key] at hk; exact absurd rfl ha
  | some x =>
    simp only [F64.lt, hk, F64.key_zero, decide_eq_false_iff_not, not_lt] at h
    simpa [F64.le, hk, F64.key_zero] using h

/-- The clamp `if rate < 0 { rate = 0 }` leaves a value that is not `< 0`. -/
theorem F64.clamp_not_lt (r : F64) :
    F64.lt (if F64.lt r F64.zero then F64.zero else r) F64.zero = false := by
  cases h : F64.lt r F64.zero
  · simpa using h
  · simpa using F64.lt_zero_zero

/-- The clamp of a value other than NaN is `>= 0`. -/
theorem F64.zero_le_clamp (r : F64) (hr : r ≠ .nan) :
    F64.le F64.zero (if F64.lt r F64.zero then F64.zero else r) = true := by
  apply F64.zero_le_of_not_lt _ _ (F64.clamp_not_lt r)
  cases h : F64.lt r F64.zero
  · simpa using hr
  · simp [F64.zero]

/-- A finite value minus itself is `+0`. -/
theorem F64.sub_self_of_finite (a : F64) (ha : a.isFinite = true) : F64.sub a a = F64.zero := by
  cases a <;> simp [F64.isFinite] at ha
  simp [F64.sub, F64.zero]

/-- `+0` divided by a positive finite value is `+0`. -/
theorem F64.zero_div (dt : F64) (hdt : dt.isPosFinite = true) : F64.div F64.zero dt = F64.zero := by
  cases dt with
  | nan => simp [F64.isPosFinite] at hdt
  | inf t => simp [F64.isPosFinite] at hdt
  | fin t m e =>
    cases t with
    | true => simp [F64.isPosFinite] at hdt
    | false =>
      have hm : m ≠ 0 := by simpa [F64.isPosFinite] using hdt
      simp [F64.div, F64.zero, hm]

theorem IEEE.loopBody_error_f64 (dt : F64) (tags : List String) (st : IEEE.LoopState)
    (err : Error) (pending : Bool) :
    IEEE.loopBody dt tags st (.error err) pending = (st, []) := rfl

theorem IEEE.loopBody_stale_f64 (dt : F64) (tags : List String) (st : IEEE.LoopState)
    (snap : IEEE.EventsOut) : IEEE.loopBody dt tags st (.ok snap) true = (st, []) := rfl

/-- Closed form of a successful, non-discarded iteration over `float64`. -/
theorem IEEE.loopBody_sample_f64 (dt : F64) (tags : List String) (st : IEEE.LoopState)
    (snap : IEEE.EventsOut) :
    IEEE.loopBody dt tags st (.ok snap) false =
      (⟨snap.Pipeline.Events.Out, snap.Pipeline.Events.In⟩,
        (if F64.eq st.lastCountOut F64.zero then []
          else [IEEE.Gauge.mk "rateout"
                  (if F64.lt (F64.div (F64.sub snap.Pipeline.Events.Out st.lastCountOut) dt)
                      F64.zero then F64.zero
                    else F64.div (F64.sub snap.Pipeline.Events.Out st.lastCountOut) dt)
                  tags IEEE.one]) ++
        (if F64.eq st.lastCountIn F64.zero then []
          else [IEEE.Gauge.mk "ratein"
                  (if F64.lt (F64.div (F64.sub snap.Pipeline.Events.In st.lastCountIn) dt)
                      F64.zero then F64.zero
                    else F64.div (F64.sub snap.Pipeline.Events.In st.lastCountIn) dt)
                  tags IEEE.one]) ++
        [IEEE.Gauge.mk "queue_size_in_bytes" snap.Pipeline.Queue.Capacity.Qsizeb tags IEEE.one,
         IEEE.Gauge.mk "max_queue_size_in_bytes" snap.Pipeline.Queue.Capacity.Maxqsizeb tags
           IEEE.one]) := by
  unfold IEEE.loopBody
  cases ho : F64.eq st.lastCountOut F64.zero <;> cases hi : F64.eq st.lastCountIn F64.zero <;>
    simp

theorem IEEE.run_cons_f64 (dt : F64) (tags : List String) (st : IEEE.LoopState)
    (c : IEEE.Cycle) (cs : List IEEE.Cycle) :
    IEEE.run dt tags st (c :: cs) =
      ((IEEE.run dt tags (IEEE.loopBody dt tags st c.1 c.2).1 cs).1,
        (IEEE.loopBody dt tags st c.1 c.2).2 ::
          (IEEE.run dt tags (IEEE.loopBody dt tags st c.1 c.2).1 cs).2) :=
  rfl

/-- Every rate gauge of one `float64` iteration is not `< 0`. -/
theorem IEEE.loopBody_rates_not_lt (dt : F64) (tags : List String) (st : IEEE.LoopState)
    (c : IEEE.Cycle) :
    ∀ g ∈ (IEEE.loopBody dt tags st c.1 c.2).2,
      g.name = "rateout" ∨ g.name = "ratein" → F64.lt g.value F64.zero = false := by
  obtain ⟨fetched, pending⟩ := c
  cases fetched with
  | error err => simp [IEEE.loopBody_error_f64]
  | ok snap =>
    cases pending with
    | true => simp [IEEE.loopBody_stale_f64]
    | false =>
      intro g hg hname
      rw [IEEE.loopBody_sample_f64] at hg
      simp only [List.mem_append, List.mem_cons, List.mem_singleton, List.not_mem_nil,
        or_false] at hg
      rcases hg with (hg | hg) | hg | hg
      · split at hg
        · simp at hg
        · simp only [List.mem_singleton] at hg
          subst hg
          exact F64.clamp_not_lt _
      · split at hg
        · simp at hg
        · simp only [List.mem_singleton] at hg
          subst hg
          exact F64.clamp_not_lt _
      · subst hg
        simp at hname
      · subst hg
        simp at hname

/-- From finite baselines, with a positive finite interval, every rate gauge of
one `float64` iteration with finite counters is `>= 0`, and the baselines stay
finite. -/
theorem IEEE.loopBody_rates_nonneg_f64 (dt : F64) (hdt : dt.isPosFinite = true)
    (tags : List String) (st : IEEE.LoopState)
    (hso : st.lastCountOut.isFinite = true) (hsi : st.lastCountIn.isFinite = true)
    (c : IEEE.Cycle) (hc : c.finiteCounters = true) :
    ((IEEE.loopBody dt tags st c.1 c.2).1.lastCountOut.isFinite = true ∧
      (IEEE.loopBody dt tags st c.1 c.2).1.lastCountIn.isFinite = true) ∧
    ∀ g ∈ (IEEE.loopBody dt tags st c.1 c.2).2,
      g.name = "rateout" ∨ g.name = "ratein" → F64.le F64.zero g.value = true := by
  obtain ⟨fetched, pending⟩ := c
  cases fetched with
  | error err => simp [IEEE.loopBody_error_f64, hso, hsi]
  | ok snap =>
    cases pending with
    | true => simp [IEEE.loopBody_stale_f64, hso, hsi]
    | false =>
      simp only [IEEE.Cycle.finiteCounters, Bool.and_eq_true] at hc
      rw [IEEE.loopBody_sample_f64]
      refine ⟨hc, ?_⟩
      intro g hg hname
      simp only [List.mem_append, List.mem_cons, List.mem_singleton, List.not_mem_nil,
        or_false] at hg
      rcases hg with (hg | hg) | hg | hg
      · split at hg
        · simp at hg
        · simp only [List.mem_singleton] at hg
          subst hg
          exact F64.zero_le_clamp _
            (F64.div_ne_nan _ _ (F64.sub_ne_nan_of_finite _ _ hc.1 hso) hdt)
      · split at hg
        · simp at hg
        · simp only [List.mem_singleton] at hg
          subst hg
          exact F64.zero_le_clamp _
            (F64.div_ne_nan _ _ (F64.sub_ne_nan_of_finite _ _ hc.2 hsi) hdt)
      · subst hg
        simp at hname
      · subst hg
        simp at hname

/-- Every rate gauge of a `float64` run, from any state, is not `< 0`. -/
theorem IEEE.run_rates_not_lt (dt : F64) (tags : List String) (cs : List IEEE.Cycle) :
    ∀ st : IEEE.LoopState, ∀ batch ∈ (IEEE.run dt tags st cs).2, ∀ g ∈ batch,
      g.name = "rateout" ∨ g.name = "ratein" → F64.lt g.value F64.zero = false := by
  induction cs with
  | nil => intro st batch hb; simp [IEEE.run] at hb
  | cons c cs ih =>
    intro st batch hb
    rw [IEEE.run_cons_f64] at hb
    simp only [List.mem_cons] at hb
    rcases hb with hb | hb
    · subst hb
      exact IEEE.loopBody_rates_not_lt dt tags st c
    · exact ih _ batch hb

/-- Every rate gauge of a `float64` run with finite counters, from finite
baselines and with a positive finite interval, is `>= 0`. -/
theorem IEEE.run_rates_nonneg_f64 (dt : F64) (hdt : dt.isPosFinite = true)
    (tags : List String) (cs : List IEEE.Cycle) :
    ∀ st : IEEE.LoopState, st.lastCountOut.isFinite = true → st.lastCountIn.isFinite = true →
      cs.all IEEE.Cycle.finiteCounters = true →
      ∀ batch ∈ (IEEE.run dt tags st cs).2, ∀ g ∈ batch,
        g.name = "rateout" ∨ g.name = "ratein" → F64.le F64.zero g.value = true := by
  induction cs with
  | nil => intro st _ _ _ batch hb; simp [IEEE.run] at hb
  | cons c cs ih =>
    intro st hso hsi hall batch hb
    simp only [List.all_cons, Bool.and_eq_true] at hall
    have hstep := IEEE.loopBody_rates_nonneg_f64 dt hdt tags st hso hsi c hall.1
    rw [IEEE.run_cons_f64] at hb
    simp only [List.mem_cons] at hb
    rcases hb with hb | hb
    · subst hb
      exact hstep.2
    · exact ih _ hstep.1.1 hstep.1.2 hall.2 batch hb

/-! ## The claims -/

/-- C1: in a successful, non-discarded cycle with a positive interval `dt`, a
counter whose stored baseline `last` is seeded (non-zero) gets exactly one rate
gauge, of value `max 0 ((cur - last) / dt)`, and `cur` becomes the new baseline,
clamped or not.  Stated for `rateout` and for `ratein`. -/
theorem C1_seeded_step (dt : ℚ) (_hdt : 0 < dt) (tags : List String) (st : LoopState)
    (snap : EventsOut) :
    (st.lastCountOut ≠ 0 →
      valuesOf "rateout" (loopBody dt tags st (.ok snap) false).2 =
          [max 0 ((snap.Pipeline.Events.Out - st.lastCountOut) / dt)] ∧
        (loopBody dt tags st (.ok snap) false).1.lastCountOut = snap.Pipeline.Events.Out) ∧
    (st.lastCountIn ≠ 0 →
      valuesOf "ratein" (loopBody dt tags st (.ok snap) false).2 =
          [max 0 ((snap.Pipeline.Events.In - st.lastCountIn) / dt)] ∧
        (loopBody dt tags st (.ok snap) false).1.lastCountIn = snap.Pipeline.Events.In) := by
  rw [loopBody_sample]
  refine ⟨fun ho => ⟨?_, rfl⟩, fun hi => ⟨?_, rfl⟩⟩
  · by_cases hi : st.lastCountIn = 0 <;> simp [valuesOf, ho, hi]
  · by_cases ho : st.lastCountOut = 0 <;> simp [valuesOf, ho, hi]

/-- C1, witness: with `dt = 10` and `out` going 100, 150, 130, the step from the
baseline 150 to 130 emits `max 0 ((130 - 150) / 10)`; the whole run emits no
`rateout` on cycle 1, `rateout = 5` on cycle 2, `rateout = 0` on cycle 3, and
ends with the baseline 130. -/
theorem C1_seeded_step_witness :
    (0 : ℚ) < 10 ∧ (⟨150, 7⟩ : LoopState).lastCountOut ≠ 0 ∧
    (valuesOf "rateout"
        (loopBody 10 ["nodename:h"] ⟨150, 7⟩ (.ok (EventsOut.mk4 130 7 1 2)) false).2 =
          [max 0 (((EventsOut.mk4 130 7 1 2).Pipeline.Events.Out -
            (⟨150, 7⟩ : LoopState).lastCountOut) / 10)] ∧
      (loopBody 10 ["nodename:h"] ⟨150, 7⟩ (.ok (EventsOut.mk4 130 7 1 2)) false).1.lastCountOut =
        (EventsOut.mk4 130 7 1 2).Pipeline.Events.Out) ∧
    (run 10 ["nodename:h"] LoopState.init
        [Cycle.sample (EventsOut.mk4 100 7 1 2), Cycle.sample (EventsOut.mk4 150 7 1 2),
         Cycle.sample (EventsOut.mk4 130 7 1 2)]).2.map (valuesOf "rateout") = [[], [5], [0]] ∧
    (run 10 ["nodename:h"] LoopState.init
        [Cycle.sample (EventsOut.mk4 100 7 1 2), Cycle.sample (EventsOut.mk4 150 7 1 2),
         Cycle.sample (EventsOut.mk4 130 7 1 2)]).1.lastCountOut = 130 :=
  ⟨by norm_num, by norm_num,
    (C1_seeded_step 10 (by norm_num) ["nodename:h"] ⟨150, 7⟩ (EventsOut.mk4 130 7 1 2)).1
      (by norm_num),
    by simp [run, loopBody, Cycle.sample, EventsOut.mk4, LoopState.init, valuesOf]; norm_num,
    by simp [run, loopBody, Cycle.sample, EventsOut.mk4, LoopState.init]⟩

/-- C2: from the initial state, whatever the snapshot, the first successful,
non-discarded cycle emits exactly the two gauges `queue_size_in_bytes` and
`max_queue_size_in_bytes`, and neither `rateout` nor `ratein`. -/
theorem C2_first_cycle_no_rates (dt : ℚ) (tags : List String) (snap : EventsOut) :
    (loopBody dt tags LoopState.init (.ok snap) false).2 =
        [Gauge.mk "queue_size_in_bytes" snap.Pipeline.Queue.Capacity.Qsizeb tags 1,
         Gauge.mk "max_queue_size_in_bytes" snap.Pipeline.Queue.Capacity.Maxqsizeb tags 1] ∧
    names (loopBody dt tags LoopState.init (.ok snap) false).2 =
        ["queue_size_in_bytes", "max_queue_size_in_bytes"] ∧
    "rateout" ∉ names (loopBody dt tags LoopState.init (.ok snap) false).2 ∧
    "ratein" ∉ names (loopBody dt tags LoopState.init (.ok snap) false).2 := by
  rw [loopBody_sample]
  simp [LoopState.init, names]

/-- C3 as stated fails over `float64`: with interval 10 and the `out` counter
`+Inf` in two consecutive snapshots, the second cycle computes
`(+Inf - +Inf) / 10 = NaN`, which is not `< 0`, so it is not clamped and
`rateout = NaN` is emitted; and `NaN >= 0` is false. -/
theorem C3_counterexample :
    F64.isPosFinite (F64.ofInt 10) = true ∧
    IEEE.valuesOf "rateout" (IEEE.batchAt
      (IEEE.run (F64.ofInt 10) ["nodename:h"] IEEE.LoopState.init
        [IEEE.Cycle.sample
           (IEEE.EventsOut.mk4 (.inf false) (F64.ofInt 7) (F64.ofInt 1) (F64.ofInt 2)),
         IEEE.Cycle.sample
           (IEEE.EventsOut.mk4 (.inf false) (F64.ofInt 7) (F64.ofInt 1) (F64.ofInt 2))]) 1) =
      [F64.nan] ∧
    F64.le F64.zero F64.nan = false := by
  decide

/-- C3, amended: over `float64`, for a positive finite interval and any finite
sequence of cycles (fetch failures, stale ticks, successful snapshots) run from
the initial state, no `rateout` or `ratein` gauge emitted in any cycle is `< 0`;
and when the `out` and `in` counters of every successful, non-discarded snapshot
are finite (neither NaN nor an infinity; decreasing or not), every `rateout`
and `ratein` gauge emitted in any cycle is `>= 0`. -/
theorem C3_rates_nonneg_finite (dt : F64) (hdt : dt.isPosFinite = true) (tags : List String)
    (cs : List IEEE.Cycle) :
    (∀ batch ∈ (IEEE.run dt tags IEEE.LoopState.init cs).2, ∀ g ∈ batch,
      g.name = "rateout" ∨ g.name = "ratein" → F64.lt g.value F64.zero = false) ∧
    (cs.all IEEE.Cycle.finiteCounters = true →
      ∀ batch ∈ (IEEE.run dt tags IEEE.LoopState.init cs).2, ∀ g ∈ batch,
        g.name = "rateout" ∨ g.name = "ratein" → F64.le F64.zero g.value = true) :=
  ⟨IEEE.run_rates_not_lt dt tags cs IEEE.LoopState.init,
    IEEE.run_rates_nonneg_f64 dt hdt tags cs IEEE.LoopState.init rfl rfl⟩

/-- C3, witness: a run with interval 10 over a sample, a fetch failure, a stale
tick with infinite counters, an increasing sample and a decreasing sample emits
only rates that are `>= 0`. -/
theorem C3_rates_nonneg_finite_witness :
    F64.isPosFinite (F64.ofInt 10) = true ∧
    List.all
      [IEEE.Cycle.sample
         (IEEE.EventsOut.mk4 (F64.ofInt 100) (F64.ofInt 40) (F64.ofInt 1) (F64.ofInt 2)),
       IEEE.Cycle.fetchError "connection refused",
       IEEE.Cycle.staleTick
         (IEEE.EventsOut.mk4 (.inf false) (.inf true) (F64.ofInt 1) (F64.ofInt 2)),
       IEEE.Cycle.sample
         (IEEE.EventsOut.mk4 (F64.ofInt 150) (F64.ofInt 60) (F64.ofInt 1) (F64.ofInt 2)),
       IEEE.Cycle.sample
         (IEEE.EventsOut.mk4 (F64.ofInt 130) F64.zero (F64.ofInt 1) (F64.ofInt 2))]
      IEEE.Cycle.finiteCounters = true ∧
    ∀ batch ∈ (IEEE.run (F64.ofInt 10) ["nodename:h"] IEEE.LoopState.init
      [IEEE.Cycle.sample
         (IEEE.EventsOut.mk4 (F64.ofInt 100) (F64.ofInt 40) (F64.ofInt 1) (F64.ofInt 2)),
       IEEE.Cycle.fetchError "connection refused",
       IEEE.Cycle.staleTick
         (IEEE.EventsOut.mk4 (.inf false) (.inf true) (F64.ofInt 1) (F64.ofInt 2)),
       IEEE.Cycle.sample
         (IEEE.EventsOut.mk4 (F64.ofInt 150) (F64.ofInt 60) (F64.ofInt 1) (F64.ofInt 2)),
       IEEE.Cycle.sample
         (IEEE.EventsOut.mk4 (F64.ofInt 130) F64.zero (F64.ofInt 1) (F64.ofInt 2))]).2,
      ∀ g ∈ batch, g.name = "rateout" ∨ g.name = "ratein" → F64.le F64.zero g.value = true :=
  ⟨by decide, by decide,
    (C3_rates_nonneg_finite (F64.ofInt 10) (by decide) ["nodename:h"] _).2 (by decide)⟩

/-- C4 as stated fails: (1) when the first snapshot has counters equal to 0, the
second successful cycle emits no rate, only the two pass-through gauges;
(2) when a later snapshot has counters equal to 0 (here the second one), the
cycle after it emits no rate, so a seeded counter does return to unseeded. -/
theorem C4_counterexample :
    (names (batchAt (run 10 ["nodename:h"] LoopState.init
        [Cycle.sample (EventsOut.mk4 0 0 1 2), Cycle.sample (EventsOut.mk4 5 5 1 2)]) 1) =
        ["queue_size_in_bytes", "max_queue_size_in_bytes"] ∧
      names (batchAt (run 10 ["nodename:h"] LoopState.init
        [Cycle.sample (EventsOut.mk4 0 0 1 2), Cycle.sample (EventsOut.mk4 5 5 1 2)]) 1) ≠
        gaugeOrder) ∧
    (names (batchAt (run 10 ["nodename:h"] LoopState.init
        [Cycle.sample (EventsOut.mk4 5 5 1 2), Cycle.sample (EventsOut.mk4 0 0 1 2),
         Cycle.sample (EventsOut.mk4 7 7 1 2)]) 2) =
        ["queue_size_in_bytes", "max_queue_size_in_bytes"] ∧
      names (batchAt (run 10 ["nodename:h"] LoopState.init
        [Cycle.sample (EventsOut.mk4 5 5 1 2), Cycle.sample (EventsOut.mk4 0 0 1 2),
         Cycle.sample (EventsOut.mk4 7 7 1 2)]) 2) ≠ gaugeOrder) := by
  simp [run, loopBody, Cycle.sample, EventsOut.mk4, LoopState.init, batchAt, names, gaugeOrder]

/-- C4, amended: in a run of successful, non-discarded cycles from the initial
state, let `a` be the snapshot of cycle `i` and `b` that of cycle `i + 1`.  Cycle
`i + 1` emits `rateout` exactly when `a.out` is non-zero and `ratein` exactly
when `a.in` is non-zero, followed by the two pass-through gauges; so when both
counters of `a` are non-zero it emits all four gauges, in the order `rateout`,
`ratein`, `queue_size_in_bytes`, `max_queue_size_in_bytes`. -/
theorem C4_rates_after_nonzero_snapshot (dt : ℚ) (tags : List String)
    (snaps : List EventsOut) (i : ℕ) (a b : EventsOut)
    (ha : snaps[i]? = some a) (hb : snaps[i + 1]? = some b) :
    names (batchAt (run dt tags LoopState.init (snaps.map Cycle.sample)) (i + 1)) =
        (if a.Pipeline.Events.Out = 0 then [] else ["rateout"]) ++
        (if a.Pipeline.Events.In = 0 then [] else ["ratein"]) ++
        ["queue_size_in_bytes", "max_queue_size_in_bytes"] ∧
    (a.Pipeline.Events.Out ≠ 0 → a.Pipeline.Events.In ≠ 0 →
      names (batchAt (run dt tags LoopState.init (snaps.map Cycle.sample)) (i + 1)) =
        gaugeOrder) := by
  have h := run_sample_succ dt tags snaps LoopState.init i a b ha hb
  have hbatch : batchAt (run dt tags LoopState.init (snaps.map Cycle.sample)) (i + 1) =
      (loopBody dt tags ⟨a.Pipeline.Events.Out, a.Pipeline.Events.In⟩ (.ok b) false).2 := by
    unfold batchAt
    rw [List.getD_eq_getElem?_getD, h]
    rfl
  rw [hbatch, loopBody_sample]
  constructor
  · by_cases ho : a.Pipeline.Events.Out = 0 <;> by_cases hi : a.Pipeline.Events.In = 0 <;>
      simp [names, ho, hi]
  · intro ho hi
    simp [names, ho, hi, gaugeOrder]

/-- C4, witness: with snapshots `out, in = (5, 6), (9, 6), (9, 8)` the third cycle
follows a snapshot with non-zero counters and emits all four gauges. -/
theorem C4_rates_after_nonzero_snapshot_witness :
    ([EventsOut.mk4 5 6 1 2, EventsOut.mk4 9 6 1 2, EventsOut.mk4 9 8 1 2])[1]? =
        some (EventsOut.mk4 9 6 1 2) ∧
    ([EventsOut.mk4 5 6 1 2, EventsOut.mk4 9 6 1 2, EventsOut.mk4 9 8 1 2])[1 + 1]? =
        some (EventsOut.mk4 9 8 1 2) ∧
    (EventsOut.mk4 9 6 1 2).Pipeline.Events.Out ≠ 0 ∧
    (EventsOut.mk4 9 6 1 2).Pipeline.Events.In ≠ 0 ∧
    names (batchAt (run 10 ["nodename:h"] LoopState.init
      (([EventsOut.mk4 5 6 1 2, EventsOut.mk4 9 6 1 2, EventsOut.mk4 9 8 1 2]).map
        Cycle.sample)) (1 + 1)) = gaugeOrder :=
  ⟨rfl, rfl, by simp [EventsOut.mk4], by simp [EventsOut.mk4],
    (C4_rates_after_nonzero_snapshot 10 ["nodename:h"]
      [EventsOut.mk4 5 6 1 2, EventsOut.mk4 9 6 1 2, EventsOut.mk4 9 8 1 2] 1
      (EventsOut.mk4 9 6 1 2) (EventsOut.mk4 9 8 1 2) rfl rfl).2
      (by simp [EventsOut.mk4]) (by simp [EventsOut.mk4])⟩

/-- C5: a cycle whose fetch fails emits no gauge and leaves `lastCountOut` and
`lastCountIn` unchanged; so running snapshot `A`, a failed fetch, then snapshot
`B` ends in the same baselines and emits for `B` the same gauges as running `A`
directly followed by `B`. -/
theorem C5_fetch_error_invisible (dt : ℚ) (tags : List String) (st : LoopState)
    (err : Error) (pending : Bool) (A B : EventsOut) :
    loopBody dt tags st (.error err) pending = (st, []) ∧
    run dt tags st [Cycle.sample A, Cycle.fetchError err, Cycle.sample B] =
      ((loopBody dt tags (loopBody dt tags st (.ok A) false).1 (.ok B) false).1,
        [(loopBody dt tags st (.ok A) false).2, [],
         (loopBody dt tags (loopBody dt tags st (.ok A) false).1 (.ok B) false).2]) ∧
    run dt tags st [Cycle.sample A, Cycle.sample B] =
      ((loopBody dt tags (loopBody dt tags st (.ok A) false).1 (.ok B) false).1,
        [(loopBody dt tags st (.ok A) false).2,
         (loopBody dt tags (loopBody dt tags st (.ok A) false).1 (.ok B) false).2]) :=
  ⟨rfl, rfl, rfl⟩

/-- C6: a stale-tick cycle emits no gauge and leaves `lastCountOut` and
`lastCountIn` unchanged, whatever the state and the fetched snapshot; so a
normal cycle `B` run right after it behaves exactly as `B` run from the state
left by the last non-discarded cycle. -/
theorem C6_stale_tick_discarded (dt : ℚ) (tags : List String) (st : LoopState)
    (S B : EventsOut) :
    loopBody dt tags st (.ok S) true = (st, []) ∧
    run dt tags st [Cycle.staleTick S, Cycle.sample B] =
      ((loopBody dt tags st (.ok B) false).1, [[], (loopBody dt tags st (.ok B) false).2]) :=
  ⟨rfl, rfl⟩

/-- C7: whatever the stored baselines and the snapshot, a successful,
non-discarded cycle emits `queue_size_in_bytes` exactly once, with the value of
the snapshot, and `max_queue_size_in_bytes` exactly once, with the value of the
snapshot. -/
theorem C7_pass_through (dt : ℚ) (tags : List String) (st : LoopState) (snap : EventsOut) :
    valuesOf "queue_size_in_bytes" (loopBody dt tags st (.ok snap) false).2 =
        [snap.Pipeline.Queue.Capacity.Qsizeb] ∧
    valuesOf "max_queue_size_in_bytes" (loopBody dt tags st (.ok snap) false).2 =
        [snap.Pipeline.Queue.Capacity.Maxqsizeb] := by
  rw [loopBody_sample]
  by_cases ho : st.lastCountOut = 0 <;> by_cases hi : st.lastCountIn = 0 <;>
    simp [valuesOf, ho, hi]

/-- C8 as stated fails: (1) when the repeated snapshot has counters equal to 0,
the second cycle emits no `rateout` and no `ratein` at all, only the two
pass-through gauges; (2) over `float64`, when the repeated snapshot has the
counters `+Inf` and `-Inf`, the second cycle computes `Inf - Inf = NaN` and emits
`rateout = NaN` and `ratein = NaN`, and `NaN == 0` is false. -/
theorem C8_counterexample :
    (IEEE.valuesOf "rateout" (IEEE.batchAt
        (IEEE.run (F64.ofInt 10) ["nodename:h"] ⟨F64.ofInt 50, F64.ofInt 60⟩
          [IEEE.Cycle.sample (IEEE.EventsOut.mk4 F64.zero F64.zero (F64.ofInt 1) (F64.ofInt 2)),
           IEEE.Cycle.sample
             (IEEE.EventsOut.mk4 F64.zero F64.zero (F64.ofInt 1) (F64.ofInt 2))]) 1) = [] ∧
      IEEE.valuesOf "ratein" (IEEE.batchAt
        (IEEE.run (F64.ofInt 10) ["nodename:h"] ⟨F64.ofInt 50, F64.ofInt 60⟩
          [IEEE.Cycle.sample (IEEE.EventsOut.mk4 F64.zero F64.zero (F64.ofInt 1) (F64.ofInt 2)),
           IEEE.Cycle.sample
             (IEEE.EventsOut.mk4 F64.zero F64.zero (F64.ofInt 1) (F64.ofInt 2))]) 1) = [] ∧
      IEEE.names (IEEE.batchAt
        (IEEE.run (F64.ofInt 10) ["nodename:h"] ⟨F64.ofInt 50, F64.ofInt 60⟩
          [IEEE.Cycle.sample (IEEE.EventsOut.mk4 F64.zero F64.zero (F64.ofInt 1) (F64.ofInt 2)),
           IEEE.Cycle.sample
             (IEEE.EventsOut.mk4 F64.zero F64.zero (F64.ofInt 1) (F64.ofInt 2))]) 1) =
        ["queue_size_in_bytes", "max_queue_size_in_bytes"]) ∧
    (IEEE.valuesOf "rateout" (IEEE.batchAt
        (IEEE.run (F64.ofInt 10) ["nodename:h"] ⟨F64.ofInt 50, F64.ofInt 60⟩
          [IEEE.Cycle.sample
             (IEEE.EventsOut.mk4 (.inf false) (.inf true) (F64.ofInt 1) (F64.ofInt 2)),
           IEEE.Cycle.sample
             (IEEE.EventsOut.mk4 (.inf false) (.inf true) (F64.ofInt 1) (F64.ofInt 2))]) 1) =
        [F64.nan] ∧
      IEEE.valuesOf "ratein" (IEEE.batchAt
        (IEEE.run (F64.ofInt 10) ["nodename:h"] ⟨F64.ofInt 50, F64.ofInt 60⟩
          [IEEE.Cycle.sample
             (IEEE.EventsOut.mk4 (.inf false) (.inf true) (F64.ofInt 1) (F64.ofInt 2)),
           IEEE.Cycle.sample
             (IEEE.EventsOut.mk4 (.inf false) (.inf true) (F64.ofInt 1) (F64.ofInt 2))]) 1) =
        [F64.nan] ∧
      F64.eq F64.nan F64.zero = false) := by
  decide

/-- C8, amended: over `float64`, for every prior state, positive finite interval
and snapshot `S`, in the second of two consecutive successful, non-discarded
cycles that both fetch `S`, a counter whose value in `S` is finite and not
`== 0` gets exactly one rate gauge, of value `+0`, and a counter whose value in
`S` is `== 0` gets no rate gauge. -/
theorem C8_repeated_finite_snapshot (dt : F64) (hdt : dt.isPosFinite = true)
    (tags : List String) (st : IEEE.LoopState) (S : IEEE.EventsOut) :
    (S.Pipeline.Events.Out.isFinite = true →
      IEEE.valuesOf "rateout" (IEEE.batchAt
          (IEEE.run dt tags st [IEEE.Cycle.sample S, IEEE.Cycle.sample S]) 1) =
        (if F64.eq S.Pipeline.Events.Out F64.zero then [] else [F64.zero])) ∧
    (S.Pipeline.Events.In.isFinite = true →
      IEEE.valuesOf "ratein" (IEEE.batchAt
          (IEEE.run dt tags st [IEEE.Cycle.sample S, IEEE.Cycle.sample S]) 1) =
        (if F64.eq S.Pipeline.Events.In F64.zero then [] else [F64.zero])) := by
  have hbatch : IEEE.batchAt
      (IEEE.run dt tags st [IEEE.Cycle.sample S, IEEE.Cycle.sample S]) 1 =
      (IEEE.loopBody dt tags (IEEE.loopBody dt tags st (.ok S) false).1 (.ok S) false).2 := rfl
  rw [hbatch, IEEE.loopBody_sample_f64 dt tags st S, IEEE.loopBody_sample_f64]
  constructor
  · intro hfin
    cases ho : F64.eq S.Pipeline.Events.Out F64.zero <;>
      cases hi : F64.eq S.Pipeline.Events.In F64.zero <;>
      simp [IEEE.valuesOf, F64.sub_self_of_finite _ hfin, F64.zero_div _ hdt, F64.lt_zero_zero]
  · intro hfin
    cases ho : F64.eq S.Pipeline.Events.Out F64.zero <;>
      cases hi : F64.eq S.Pipeline.Events.In F64.zero <;>
      simp [IEEE.valuesOf, F64.sub_self_of_finite _ hfin, F64.zero_div _ hdt, F64.lt_zero_zero]

/-- C8, witness: interval 10, prior state `(50, 60)`, snapshot `out = 7, in = 9`
fetched twice: the second cycle emits `rateout = +0` and `ratein = +0`. -/
theorem C8_repeated_finite_snapshot_witness :
    F64.isPosFinite (F64.ofInt 10) = true ∧
    (IEEE.EventsOut.mk4 (F64.ofInt 7) (F64.ofInt 9) (F64.ofInt 1)
      (F64.ofInt 2)).Pipeline.Events.Out.isFinite = true ∧
    (IEEE.EventsOut.mk4 (F64.ofInt 7) (F64.ofInt 9) (F64.ofInt 1)
      (F64.ofInt 2)).Pipeline.Events.In.isFinite = true ∧
    IEEE.valuesOf "rateout" (IEEE.batchAt
        (IEEE.run (F64.ofInt 10) ["nodename:h"] ⟨F64.ofInt 50, F64.ofInt 60⟩
          [IEEE.Cycle.sample
             (IEEE.EventsOut.mk4 (F64.ofInt 7) (F64.ofInt 9) (F64.ofInt 1) (F64.ofInt 2)),
           IEEE.Cycle.sample
             (IEEE.EventsOut.mk4 (F64.ofInt 7) (F64.ofInt 9) (F64.ofInt 1) (F64.ofInt 2))]) 1) =
      [F64.zero] ∧
    IEEE.valuesOf "ratein" (IEEE.batchAt
        (IEEE.run (F64.ofInt 10) ["nodename:h"] ⟨F64.ofInt 50, F64.ofInt 60⟩
          [IEEE.Cycle.sample
             (IEEE.EventsOut.mk4 (F64.ofInt 7) (F64.ofInt 9) (F64.ofInt 1) (F64.ofInt 2)),
           IEEE.Cycle.sample
             (IEEE.EventsOut.mk4 (F64.ofInt 7) (F64.ofInt 9) (F64.ofInt 1) (F64.ofInt 2))]) 1) =
      [F64.zero] :=
  ⟨by decide, by decide, by decide,
    ((C8_repeated_finite_snapshot (F64.ofInt 10) (by decide) ["nodename:h"]
      ⟨F64.ofInt 50, F64.ofInt 60⟩
      (IEEE.EventsOut.mk4 (F64.ofInt 7) (F64.ofInt 9) (F64.ofInt 1) (F64.ofInt 2))).1
      (by decide)).trans (by decide),
    ((C8_repeated_finite_snapshot (F64.ofInt 10) (by decide) ["nodename:h"]
      ⟨F64.ofInt 50, F64.ofInt 60⟩
      (IEEE.EventsOut.mk4 (F64.ofInt 7) (F64.ofInt 9) (F64.ofInt 1) (F64.ofInt 2))).2
      (by decide)).trans (by decide)⟩

/-- C9: for every state and every cycle (failed fetch, stale tick or sample),
the list of gauge names emitted by the cycle, in emission order, is a
subsequence of `rateout, ratein, queue_size_in_bytes, max_queue_size_in_bytes`. -/
theorem C9_emission_order (dt : ℚ) (tags : List String) (st : LoopState)
    (fetched : Except Error EventsOut) (pending : Bool) :
    (names (loopBody dt tags st fetched pending).2).Sublist gaugeOrder := by
  cases fetched with
  | error err => simp [loopBody_error, names]
  | ok snap =>
    cases pending with
    | true => simp [loopBody_stale, names]
    | false =>
      rw [loopBody_sample]
      by_cases ho : st.lastCountOut = 0 <;> by_cases hi : st.lastCountIn = 0 <;>
        simp [names, ho, hi, gaugeOrder]

/-- C10 fails on the code: with a successful GET and body read and a failing
JSON decode that leaves `e` at its zero value, `GetEvents` returns the zero
snapshot and no error, and the cycle run on that result is not skipped: from the
baselines `(150, 70)` it emits `rateout = 0`, `ratein = 0` and both queue gauges
as 0, and resets both baselines to 0. -/
theorem C10_decode_error_not_returned :
    GetEvents ⟨none, none, id, some "unexpected end of JSON input"⟩ = .ok EventsOut.zero ∧
    loopBody 10 ["nodename:h"] ⟨150, 70⟩
        (GetEvents ⟨none, none, id, some "unexpected end of JSON input"⟩) false =
      (⟨0, 0⟩,
        [Gauge.mk "rateout" 0 ["nodename:h"] 1, Gauge.mk "ratein" 0 ["nodename:h"] 1,
         Gauge.mk "queue_size_in_bytes" 0 ["nodename:h"] 1,
         Gauge.mk "max_queue_size_in_bytes" 0 ["nodename:h"] 1]) := by
  refine ⟨rfl, ?_⟩
  have h : GetEvents ⟨none, none, id, some "unexpected end of JSON input"⟩ =
      .ok EventsOut.zero := rfl
  rw [h, loopBody_sample]
  simp [EventsOut.zero]
  norm_num

end LsMetrics
